import Mathlib

/-!
Verification of the speech-emotion analysis pipeline of app.py
(AI Public Speaking Coach).

The program is a single script: it loads a TFLite interpreter once
(load_tflite_model), extracts an MFCC feature matrix from an uploaded
audio file (extract_features_from_path), normalizes it to a fixed shape
(40, 862), runs inference (run_tflite_inference), derives the dominant
emotion by np.argmax over EMOTION_LABELS, and shows a feedback string
(get_feedback).

Numeric samples are modelled as rationals; matrices are lists of rows.
Fallible calls (librosa decoding, interpreter construction) are modelled
with explicit outcome types: the except branches of the script catch every
exception and return None, which is modelled as Option.none.
-/

/-- n_mfcc, the fixed number of MFCC coefficient rows requested from librosa. -/
def n_mfcc : Nat := 40

/-- max_pad_len, the fixed number of time frames after normalization. -/
def max_pad_len : Nat := 862

/-- Lexicographic comparison of char lists by code point, the order Python
uses to compare strings. -/
def charListLe : List Char → List Char → Bool
  | [], _ => true
  | _ :: _, [] => false
  | a :: as, b :: bs =>
      if a.val < b.val then true
      else if b.val < a.val then false
      else charListLe as bs

/-- Python string comparison a <= b: lexicographic by code point. -/
def str_le (a b : String) : Bool := charListLe a.data b.data

/-- EMOTION_LABELS (app.py line 21): the eight emotion tags, sorted ascending
as Python sorted does. -/
def EMOTION_LABELS : List String :=
  List.insertionSort (fun a b => str_le a b = true)
    ["angry", "calm", "disgust", "fearful", "happy", "neutral", "sad", "surprised"]

/-- numpy shape[1] of a rectangular matrix stored as a list of rows: the
common row length, read off the first row. -/
def shape1 (m : List (List ℚ)) : Nat := (m.headD []).length

/-- np.pad(m, ((0, 0), (0, w)), mode=constant): append w zero columns on the
right of every row. -/
def pad_right_zero (w : Nat) (m : List (List ℚ)) : List (List ℚ) :=
  m.map (fun row => row ++ List.replicate w 0)

/-- m[:, :n]: keep the first n columns of every row. -/
def take_cols (n : Nat) (m : List (List ℚ)) : List (List ℚ) :=
  m.map (fun row => row.take n)

/-- Outcome of the decoding part of extract_features_from_path: librosa.load
followed by librosa.feature.mfcc either produces a coefficient matrix, or
raises an exception with a message that the except branch catches. -/
inductive DecodeResult where
  | ok (mfcc : List (List ℚ))
  | err (msg : String)

/-- extract_features_from_path (app.py lines 38-51): on a successful decode,
normalize the MFCC matrix to max_pad_len time columns by right zero padding
(when shape[1] < max_pad_len) or by keeping the first max_pad_len columns
(otherwise); on a decode error, report it (st.error) and return None. -/
def extract_features_from_path (decoded : DecodeResult) : Option (List (List ℚ)) :=
  match decoded with
  | .err _ => none
  | .ok mfcc =>
      if shape1 mfcc < max_pad_len then
        some (pad_right_zero (max_pad_len - shape1 mfcc) mfcc)
      else
        some (take_cols max_pad_len mfcc)

/-- The feedback dictionary of get_feedback (app.py lines 55-64), keys in
source order. -/
def feedback_dict : List (String × String) :=
  [("angry", "🔥 Terdeteksi marah. Suara Anda terdengar tegas. Untuk beberapa konteks, ini bagus untuk penekanan. Namun, untuk audiens umum, coba bicara dengan intonasi lebih kalem dan hindari tekanan berlebih."),
   ("happy", "😊 Bagus! Suaramu terdengar menyenangkan dan bersemangat. Energi positif seperti ini sangat menular ke audiens. Pertahankan!"),
   ("sad", "💧 Terdeteksi sedih. Jika ini disengaja untuk story-telling, ini efektif. Jika tidak, coba tingkatkan semangat dan naikkan intonasi untuk menjaga perhatian audiens."),
   ("neutral", "😐 Netral. Suara Anda terdengar jelas namun kurang menunjukkan emosi. Coba tambahkan lebih banyak variasi intonasi (naik-turun) agar tidak terdengar datar dan lebih menarik."),
   ("fearful", "😨 Terdeteksi takut atau gugup. Ini wajar. Tenangkan diri sebelum bicara, ambil napas dalam, dan latih artikulasi Anda. Berbicara sedikit lebih lambat bisa membantu."),
   ("calm", "🧘 Sangat baik! Suara Anda terdengar tenang, terkontrol, dan nyaman untuk didengar. Ini menciptakan suasana yang meyakinkan dan dapat dipercaya."),
   ("surprised", "😮 Terdengar terkejut. Emosi ini sangat bagus untuk digunakan sebagai penekanan pada poin-poin penting atau saat menyampaikan sesuatu yang tidak terduga untuk membangun klimaks."),
   ("disgust", "🤢 Terdeteksi emosi negatif (jijik/tidak suka). Hati-hati dengan nada ini karena bisa membuat audiens merasa tidak nyaman atau tersinggung. Pastikan nada Anda sesuai dengan pesan yang ingin disampaikan.")]

/-- The fallback string of feedback_dict.get for an unknown label. -/
def default_feedback : String := "Latih lagi artikulasi dan emosi agar lebih meyakinkan."

/-- get_feedback (app.py lines 53-65): dictionary lookup with a fallback. -/
def get_feedback (label : String) : String :=
  match feedback_dict.lookup label with
  | some s => s
  | none => default_feedback

/-- np.argmax on a one-dimensional array: the index of the first occurrence of
the maximum value, per the numpy documentation (numpy raises on an empty
array; the embedding is only used on nonempty vectors). -/
def np_argmax (v : List ℚ) : Nat :=
  v.findIdx (fun x => v.all (fun y => y ≤ x))

/-- A rank-4 tensor as nested lists: batch, rows, columns, channels. -/
abbrev Tensor4 := List (List (List (List ℚ)))

/-- features[np.newaxis, ..., np.newaxis] (app.py line 107): add a leading
batch dimension and a trailing channel dimension to a matrix, giving shape
(1, rows, cols, 1). -/
def add_batch_channel (m : List (List ℚ)) : Tensor4 :=
  [m.map (fun row => row.map (fun x => [x]))]

/-- Modelled from the spec: the TFLite model artifact models/model.tflite is
not part of the repository; an allocated interpreter is modelled as an
abstract function from the rank-4 input tensor to the batched output tensor,
which the spec fixes to shape (1, 8). -/
structure Interpreter where
  run : Tensor4 → List (List ℚ)

/-- run_tflite_inference (app.py lines 67-74): set the input tensor, invoke
the interpreter, and return output_data[0], the first row of the batched
output. -/
def run_tflite_inference (interpreter : Interpreter) (input_data : Tensor4) : List ℚ :=
  (interpreter.run input_data).headD []

/-- State of the model artifact at TFLITE_MODEL_PATH: either interpreter
construction and tensor allocation succeed, or the artifact is missing or
malformed and the constructor raises an exception with a message. -/
inductive ArtifactState where
  | present (interpreter : Interpreter)
  | missingOrMalformed (msg : String)

/-- load_tflite_model (app.py lines 25-35): build the interpreter and allocate
tensors; on any exception show an error message and return None. -/
def load_tflite_model (artifact : ArtifactState) : Option Interpreter :=
  match artifact with
  | .present i => some i
  | .missingOrMalformed _ => none

/-- What the page shows for one run of the script. -/
inductive AppView where
  | warningNotReady
  | infoAwaitingUpload
  | extractionError
  | results (label : String) (confidence : ℚ) (feedback : String) (vector : List ℚ)

/-- The files currently existing in the temporary directory. -/
structure FS where
  files : List String

/-- One uploaded request: the scratch path chosen by NamedTemporaryFile and
what the decoder does with the bytes written there. -/
structure Upload where
  tempPath : String
  decode : DecodeResult

/-- The per-request pipeline (app.py lines 98-108): write the uploaded buffer
to a scratch file, extract features from that path, remove the scratch file
(os.remove runs unconditionally, since extract_features_from_path catches its
own exceptions), and if extraction succeeded reshape the matrix and run
inference. Returns the new file-system state, the prediction if any, and
whether inference was invoked. -/
def analyze_request (fs : FS) (up : Upload) (interpreter : Interpreter) :
    FS × Option (List ℚ) × Bool :=
  let fs1 : FS := ⟨up.tempPath :: fs.files⟩
  let features := extract_features_from_path up.decode
  let fs2 : FS := ⟨fs1.files.filter (fun p => p ≠ up.tempPath)⟩
  match features with
  | none => (fs2, none, false)
  | some m =>
      let input_data := add_batch_channel m
      let prediction := run_tflite_inference interpreter input_data
      (fs2, some prediction, true)

/-- The top-level script flow (app.py lines 78-137): load the model; when that
failed, warn that the app is not ready and stop; otherwise, when a file was
uploaded, analyze it and derive the dominant label, confidence and feedback.
The Bool records whether inference was invoked during the run. -/
def app_main (fs : FS) (artifact : ArtifactState) (upload : Option Upload) :
    FS × AppView × Bool :=
  match load_tflite_model artifact with
  | none => (fs, .warningNotReady, false)
  | some interpreter =>
      match upload with
      | none => (fs, .infoAwaitingUpload, false)
      | some up =>
          match analyze_request fs up interpreter with
          | (fs2, none, attempted) => (fs2, .extractionError, attempted)
          | (fs2, some prediction, attempted) =>
              let idx_max := np_argmax prediction
              let emosi_dominan := EMOTION_LABELS.getD idx_max ""
              let confidence := prediction.getD idx_max 0
              (fs2, .results emosi_dominan confidence (get_feedback emosi_dominan) prediction,
                attempted)

/-! ## Helper lemmas -/

lemma shape1_eq_of_uniform (mfcc : List (List ℚ)) (T : Nat) (hne : mfcc ≠ [])
    (huniform : ∀ r ∈ mfcc, r.length = T) : shape1 mfcc = T := by
  cases mfcc with
  | nil => exact absurd rfl hne
  | cons r rs =>
      have : r.length = T := huniform r (List.mem_cons_self r rs)
      simpa [shape1] using this

/-! ## Claims about feature extraction -/

/-- C1: for every input audio source that decodes successfully (giving an
MFCC matrix with n_mfcc = 40 rows and a uniform number T of time columns),
extract_features_from_path returns a feature matrix of shape exactly
(40, 862), whatever T is. -/
theorem extract_shape_40_862
    (mfcc : List (List ℚ)) (T : Nat)
    (hrows : mfcc.length = n_mfcc)
    (huniform : ∀ r ∈ mfcc, r.length = T) :
    ∃ M, extract_features_from_path (.ok mfcc) = some M ∧
      M.length = 40 ∧ ∀ r ∈ M, r.length = 862 := by
  have hne : mfcc ≠ [] := by
    intro h
    rw [h] at hrows
    simp [n_mfcc] at hrows
  have hs : shape1 mfcc = T := shape1_eq_of_uniform mfcc T hne huniform
  by_cases hT : T < max_pad_len
  · refine ⟨pad_right_zero (max_pad_len - T) mfcc, ?_, ?_, ?_⟩
    · simp [extract_features_from_path, hs, hT]
    · simpa [pad_right_zero] using hrows
    · intro r hr
      simp only [pad_right_zero, List.mem_map] at hr
      obtain ⟨r0, hr0, rfl⟩ := hr
      have hlen : r0.length = T := huniform r0 hr0
      have hmp : max_pad_len = 862 := rfl
      rw [hmp] at hT
      simp only [List.length_append, List.length_replicate, hlen, hmp]
      omega
  · refine ⟨take_cols max_pad_len mfcc, ?_, ?_, ?_⟩
    · simp [extract_features_from_path, hs, hT]
    · simpa [take_cols] using hrows
    · intro r hr
      simp only [take_cols, List.mem_map] at hr
      obtain ⟨r0, hr0, rfl⟩ := hr
      have hlen : r0.length = T := huniform r0 hr0
      have hmp : max_pad_len = 862 := rfl
      rw [hmp] at hT
      simp only [List.length_take, hlen, hmp]
      omega

/-- Witness for C1 at a concrete matrix of 40 rows and 3 columns. -/
theorem extract_shape_40_862_witness :
    ∃ M, extract_features_from_path (.ok (List.replicate 40 (List.replicate 3 (1 : ℚ))))
        = some M ∧ M.length = 40 ∧ ∀ r ∈ M, r.length = 862 :=
  extract_shape_40_862 (List.replicate 40 (List.replicate 3 (1 : ℚ))) 3
    (by simp [n_mfcc])
    (by
      intro r hr
      rw [List.eq_of_mem_replicate hr]
      simp)

/-- C5: when the MFCC matrix has T < max_pad_len time columns, the result is
each row right-padded with zeros up to 862 entries: the first T entries of
every output row are the unmodified row, and every entry of the padded region
is exactly zero. -/
theorem extract_pads_with_zeros
    (mfcc : List (List ℚ)) (T : Nat)
    (hrows : mfcc.length = n_mfcc)
    (huniform : ∀ r ∈ mfcc, r.length = T)
    (hT : T < max_pad_len) :
    extract_features_from_path (.ok mfcc)
      = some (mfcc.map (fun r => r ++ List.replicate (max_pad_len - T) 0)) ∧
    ∀ r ∈ mfcc,
      (r ++ List.replicate (max_pad_len - T) 0).take T = r ∧
      ∀ k, T ≤ k → (r ++ List.replicate (max_pad_len - T) 0).getD k 0 = 0 := by
  have hne : mfcc ≠ [] := by
    intro h
    rw [h] at hrows
    simp [n_mfcc] at hrows
  have hs : shape1 mfcc = T := shape1_eq_of_uniform mfcc T hne huniform
  refine ⟨by simp [extract_features_from_path, hs, hT, pad_right_zero], ?_⟩
  intro r hr
  have hlen : r.length = T := huniform r hr
  constructor
  · rw [List.take_append_of_le_length (by omega)]
    rw [← hlen]
    exact List.take_length r
  · intro k hk
    by_cases hk2 : k < T + (max_pad_len - T)
    · rw [List.getD_eq_getElem?_getD, List.getElem?_append_right (by omega)]
      rw [List.getElem?_replicate]
      have : k - r.length < max_pad_len - T := by omega
      simp [this]
    · rw [List.getD_eq_getElem?_getD, List.getElem?_eq_none]
      · rfl
      · simp only [List.length_append, List.length_replicate, hlen]
        omega

/-- Witness for C5 at a concrete matrix of 40 rows and 2 columns. -/
theorem extract_pads_with_zeros_witness :
    extract_features_from_path (.ok (List.replicate 40 [(5 : ℚ), 7]))
      = some ((List.replicate 40 [(5 : ℚ), 7]).map
          (fun r => r ++ List.replicate (max_pad_len - 2) 0)) ∧
    ∀ r ∈ List.replicate 40 [(5 : ℚ), 7],
      (r ++ List.replicate (max_pad_len - 2) 0).take 2 = r ∧
      ∀ k, 2 ≤ k → (r ++ List.replicate (max_pad_len - 2) 0).getD k 0 = 0 :=
  extract_pads_with_zeros (List.replicate 40 [(5 : ℚ), 7]) 2
    (by simp [n_mfcc])
    (by
      intro r hr
      rw [List.eq_of_mem_replicate hr]
      rfl)
    (by simp [max_pad_len])

/-- C6: when the MFCC matrix has T > max_pad_len time columns, the result
keeps exactly the first 862 columns of every row: output rows have length
862 and agree entrywise with the input rows on every index below 862. -/
theorem extract_truncates_to_first_cols
    (mfcc : List (List ℚ)) (T : Nat)
    (hrows : mfcc.length = n_mfcc)
    (huniform : ∀ r ∈ mfcc, r.length = T)
    (hT : max_pad_len < T) :
    extract_features_from_path (.ok mfcc)
      = some (mfcc.map (fun r => r.take max_pad_len)) ∧
    ∀ r ∈ mfcc,
      (r.take max_pad_len).length = max_pad_len ∧
      ∀ k, k < max_pad_len → (r.take max_pad_len).getD k 0 = r.getD k 0 := by
  have hne : mfcc ≠ [] := by
    intro h
    rw [h] at hrows
    simp [n_mfcc] at hrows
  have hs : shape1 mfcc = T := shape1_eq_of_uniform mfcc T hne huniform
  refine ⟨by simp [extract_features_from_path, hs, take_cols, Nat.not_lt.mpr (Nat.le_of_lt hT)], ?_⟩
  intro r hr
  have hlen : r.length = T := huniform r hr
  constructor
  · simp only [List.length_take, hlen]
    omega
  · intro k hk
    rw [List.getD_eq_getElem?_getD, List.getD_eq_getElem?_getD, List.getElem?_take]
    simp [hk]

/-- Witness for C6 at a concrete matrix of 40 rows and 863 columns. -/
theorem extract_truncates_to_first_cols_witness :
    extract_features_from_path (.ok (List.replicate 40 (List.replicate 863 (2 : ℚ))))
      = some ((List.replicate 40 (List.replicate 863 (2 : ℚ))).map
          (fun r => r.take max_pad_len)) ∧
    ∀ r ∈ List.replicate 40 (List.replicate 863 (2 : ℚ)),
      (r.take max_pad_len).length = max_pad_len ∧
      ∀ k, k < max_pad_len → (r.take max_pad_len).getD k 0 = r.getD k 0 :=
  extract_truncates_to_first_cols (List.replicate 40 (List.replicate 863 (2 : ℚ))) 863
    (by rw [List.length_replicate]; rfl)
    (by
      intro r hr
      rw [List.eq_of_mem_replicate hr, List.length_replicate])
    (by decide)

/-- C3: when the source cannot be decoded as audio (the librosa calls raise),
extract_features_from_path takes its except branch and returns None: no
feature matrix is produced, and the per-request pipeline yields no prediction
and never invokes inference. The embedding is a total function, so there is
no crash and no hang. -/
theorem extract_fails_on_decode_error
    (msg : String) (fs : FS) (tmp : String) (interpreter : Interpreter) :
    extract_features_from_path (.err msg) = none ∧
    (∀ M, extract_features_from_path (.err msg) ≠ some M) ∧
    ∃ fs2, analyze_request fs ⟨tmp, .err msg⟩ interpreter = (fs2, none, false) := by
  refine ⟨rfl, fun M h => by simp [extract_features_from_path] at h, ?_⟩
  exact ⟨⟨(tmp :: fs.files).filter (fun p => p ≠ tmp)⟩, rfl⟩

/-- C4: when the model artifact is missing or malformed, load_tflite_model
returns None, the script shows the not-ready warning instead of accepting
input, and inference is never invoked (the attempted flag is false), whatever
was uploaded. -/
theorem model_load_failure_blocks_inference
    (msg : String) (fs : FS) (upload : Option Upload) :
    load_tflite_model (.missingOrMalformed msg) = none ∧
    app_main fs (.missingOrMalformed msg) upload = (fs, .warningNotReady, false) :=
  ⟨rfl, rfl⟩

/-! ## Claims about argmax and labels -/

lemma exists_max_mem (v : List ℚ) (h : v ≠ []) : ∃ x ∈ v, ∀ y ∈ v, y ≤ x := by
  induction v with
  | nil => exact absurd rfl h
  | cons a t ih =>
      cases t with
      | nil => exact ⟨a, by simp, by simp⟩
      | cons b u =>
          obtain ⟨x, hx, hmax⟩ := ih (by simp)
          by_cases hax : a ≤ x
          · refine ⟨x, List.mem_cons_of_mem a hx, ?_⟩
            intro y hy
            rcases List.mem_cons.mp hy with rfl | hy
            · exact hax
            · exact hmax y hy
          · refine ⟨a, List.mem_cons_self a _, ?_⟩
            intro y hy
            rcases List.mem_cons.mp hy with rfl | hy
            · exact le_refl y
            · exact le_trans (hmax y hy) (le_of_not_le hax)

lemma np_argmax_lt_length (v : List ℚ) (h : v ≠ []) : np_argmax v < v.length := by
  apply List.findIdx_lt_length_of_exists
  obtain ⟨x, hx, hmax⟩ := exists_max_mem v h
  refine ⟨x, hx, ?_⟩
  simp only [List.all_eq_true, decide_eq_true_eq]
  exact hmax

lemma getD_eq_getElem_of_lt (v : List ℚ) (k : Nat) (hk : k < v.length) :
    v.getD k 0 = v[k] := by
  rw [List.getD_eq_getElem?_getD, List.getElem?_eq_getElem hk]
  rfl

/-- C2: dominant-label derivation is np.argmax over the probability vector
with ties broken by lowest index: on a vector whose maximum is attained at
exactly the two indices i < j, np_argmax returns i. -/
theorem argmax_tie_breaks_low
    (v : List ℚ) (i j : Nat)
    (hi : i < v.length) (hj : j < v.length) (hij : i < j)
    (heq : v.getD i 0 = v.getD j 0)
    (hmax : ∀ k, k < v.length → v.getD k 0 ≤ v.getD i 0)
    (honly : ∀ k, k < v.length → v.getD k 0 = v.getD i 0 → k = i ∨ k = j) :
    np_argmax v = i := by
  rw [np_argmax, List.findIdx_eq hi]
  constructor
  · simp only [List.all_eq_true, decide_eq_true_eq]
    intro y hy
    obtain ⟨k, hk, rfl⟩ := List.mem_iff_getElem.mp hy
    rw [← getD_eq_getElem_of_lt v k hk, ← getD_eq_getElem_of_lt v i hi]
    exact hmax k hk
  · intro k hki
    have hk : k < v.length := Nat.lt_trans hki hi
    have hne : v.getD k 0 ≠ v.getD i 0 := by
      intro hkeq
      rcases honly k hk hkeq with rfl | rfl
      · exact Nat.lt_irrefl _ hki
      · exact Nat.lt_irrefl _ (Nat.lt_trans hki hij)
    have hklt : v.getD k 0 < v.getD i 0 := lt_of_le_of_ne (hmax k hk) hne
    simp only [List.all_eq_false, decide_eq_true_eq, not_le]
    refine ⟨v[i], List.getElem_mem hi, ?_⟩
    rw [← getD_eq_getElem_of_lt v i hi, ← getD_eq_getElem_of_lt v k hk]
    exact hklt

/-- Witness for C2 on the vector [3, 3, 1] with maxima at indices 0 and 1. -/
theorem argmax_tie_breaks_low_witness :
    np_argmax [(3 : ℚ), 3, 1] = 0 :=
  argmax_tie_breaks_low [(3 : ℚ), 3, 1] 0 1 (by decide) (by decide) (by decide)
    (by decide) (by decide) (by decide)

/-- C10: for every probability vector of length 8, the argmax index is in
bounds for EMOTION_LABELS, the derived label is a key of feedback_dict, and
get_feedback on it never returns the fallback string: the fallback branch is
unreachable from the pipeline. -/
theorem pipeline_label_always_known (v : List ℚ) (h : v.length = 8) :
    np_argmax v < 8 ∧
    EMOTION_LABELS.getD (np_argmax v) "" ∈ EMOTION_LABELS ∧
    (feedback_dict.lookup (EMOTION_LABELS.getD (np_argmax v) "")).isSome = true ∧
    get_feedback (EMOTION_LABELS.getD (np_argmax v) "") ≠ default_feedback := by
  have hne : v ≠ [] := by
    intro hv
    rw [hv] at h
    simp at h
  have hlt : np_argmax v < 8 := h ▸ np_argmax_lt_length v hne
  obtain ⟨n, hn⟩ : ∃ n, np_argmax v = n := ⟨_, rfl⟩
  rw [hn] at hlt ⊢
  refine ⟨hlt, ?_, ?_, ?_⟩ <;> interval_cases n <;> decide

/-- Witness for C10 at a concrete vector of length 8. -/
theorem pipeline_label_always_known_witness :
    np_argmax [(0 : ℚ), 0, 0, 0, 0, 0, 0, 1] < 8 ∧
    EMOTION_LABELS.getD (np_argmax [(0 : ℚ), 0, 0, 0, 0, 0, 0, 1]) "" ∈ EMOTION_LABELS ∧
    (feedback_dict.lookup
        (EMOTION_LABELS.getD (np_argmax [(0 : ℚ), 0, 0, 0, 0, 0, 0, 1]) "")).isSome = true ∧
    get_feedback (EMOTION_LABELS.getD (np_argmax [(0 : ℚ), 0, 0, 0, 0, 0, 0, 1]) "")
      ≠ default_feedback :=
  pipeline_label_always_known [(0 : ℚ), 0, 0, 0, 0, 0, 0, 1] (by decide)

/-! ## Claims about inference and feedback -/

/-- C7: classify adds batch and channel dimensions to the (40, 862) feature
matrix, giving shape (1, 40, 862, 1), feeds it to the model, and returns the
raw output vector output_data[0] of length 8, index-aligned with the sorted
label set. The model artifact is not in the repository; per the spec its
output has shape (1, 8), which enters as the hypotheses on interpreter.run. -/
theorem classify_reshapes_and_returns_vector
    (M : List (List ℚ)) (interpreter : Interpreter) (v : List ℚ)
    (hrows : M.length = 40) (hcols : ∀ r ∈ M, r.length = 862)
    (hrun : interpreter.run (add_batch_channel M) = [v])
    (hlen : v.length = 8) :
    (add_batch_channel M).length = 1 ∧
    (∀ plane ∈ add_batch_channel M, plane.length = 40 ∧
      ∀ row ∈ plane, row.length = 862 ∧ ∀ cell ∈ row, cell.length = 1) ∧
    run_tflite_inference interpreter (add_batch_channel M) = v ∧
    (run_tflite_inference interpreter (add_batch_channel M)).length = 8 ∧
    EMOTION_LABELS
      = ["angry", "calm", "disgust", "fearful", "happy", "neutral", "sad", "surprised"] ∧
    EMOTION_LABELS.length = 8 := by
  have hout : run_tflite_inference interpreter (add_batch_channel M) = v := by
    rw [run_tflite_inference, hrun]
    rfl
  refine ⟨rfl, ?_, hout, by rw [hout, hlen], by decide, by decide⟩
  intro plane hp
  simp only [add_batch_channel, List.mem_singleton] at hp
  subst hp
  refine ⟨by simpa using hrows, ?_⟩
  intro row hrow
  simp only [List.mem_map] at hrow
  obtain ⟨r0, hr0, rfl⟩ := hrow
  refine ⟨by simpa using hcols r0 hr0, ?_⟩
  intro cell hcell
  simp only [List.mem_map] at hcell
  obtain ⟨x, hx, rfl⟩ := hcell
  rfl

/-- Witness for C7: the zero matrix of shape (40, 862) fed to an interpreter
that outputs the batched one-hot vector [[1, 0, 0, 0, 0, 0, 0, 0]]. -/
theorem classify_reshapes_and_returns_vector_witness :
    (add_batch_channel (List.replicate 40 (List.replicate 862 (0 : ℚ)))).length = 1 ∧
    (∀ plane ∈ add_batch_channel (List.replicate 40 (List.replicate 862 (0 : ℚ))),
      plane.length = 40 ∧
      ∀ row ∈ plane, row.length = 862 ∧ ∀ cell ∈ row, cell.length = 1) ∧
    run_tflite_inference ⟨fun _ => [[1, 0, 0, 0, 0, 0, 0, 0]]⟩
        (add_batch_channel (List.replicate 40 (List.replicate 862 (0 : ℚ))))
      = [1, 0, 0, 0, 0, 0, 0, 0] ∧
    (run_tflite_inference ⟨fun _ => [[1, 0, 0, 0, 0, 0, 0, 0]]⟩
        (add_batch_channel (List.replicate 40 (List.replicate 862 (0 : ℚ))))).length = 8 ∧
    EMOTION_LABELS
      = ["angry", "calm", "disgust", "fearful", "happy", "neutral", "sad", "surprised"] ∧
    EMOTION_LABELS.length = 8 :=
  classify_reshapes_and_returns_vector
    (List.replicate 40 (List.replicate 862 (0 : ℚ)))
    ⟨fun _ => [[1, 0, 0, 0, 0, 0, 0, 0]]⟩
    [1, 0, 0, 0, 0, 0, 0, 0]
    (by rw [List.length_replicate])
    (by
      intro r hr
      rw [List.eq_of_mem_replicate hr, List.length_replicate])
    rfl
    rfl

/-- C8: get_feedback is a pure total function: each of the 8 known labels is
a key of the dictionary and yields a non-empty string, the 8 advisory strings
are pairwise distinct, and any label outside the known set yields the generic
fallback string. -/
theorem get_feedback_total :
    (∀ label ∈ EMOTION_LABELS,
      (feedback_dict.lookup label).isSome = true ∧ get_feedback label ≠ "") ∧
    (feedback_dict.map Prod.snd).Nodup ∧
    feedback_dict.length = 8 ∧
    (∀ label, label ∉ EMOTION_LABELS → get_feedback label = default_feedback) := by
  refine ⟨by decide, by decide, by decide, ?_⟩
  intro label hnot
  have hE : EMOTION_LABELS
      = ["angry", "calm", "disgust", "fearful", "happy", "neutral", "sad", "surprised"] := by
    decide
  rw [hE] at hnot
  simp only [List.mem_cons, List.not_mem_nil, or_false, not_or] at hnot
  obtain ⟨h1, h2, h3, h4, h5, h6, h7, h8⟩ := hnot
  rw [get_feedback]
  have b1 : (label == "angry") = false := beq_eq_false_iff_ne.mpr h1
  have b2 : (label == "calm") = false := beq_eq_false_iff_ne.mpr h2
  have b3 : (label == "disgust") = false := beq_eq_false_iff_ne.mpr h3
  have b4 : (label == "fearful") = false := beq_eq_false_iff_ne.mpr h4
  have b5 : (label == "happy") = false := beq_eq_false_iff_ne.mpr h5
  have b6 : (label == "neutral") = false := beq_eq_false_iff_ne.mpr h6
  have b7 : (label == "sad") = false := beq_eq_false_iff_ne.mpr h7
  have b8 : (label == "surprised") = false := beq_eq_false_iff_ne.mpr h8
  have hlook : feedback_dict.lookup label = none := by
    simp [feedback_dict, List.lookup, b1, b2, b3, b4, b5, b6, b7, b8]
  rw [hlook]

/-- C9: the scratch file written for the decoder is removed on every exit
path of the per-request pipeline: after analyze_request, with any decode
outcome (success or failure), the temporary path is no longer among the
existing files. -/
theorem temp_file_removed (fs : FS) (up : Upload) (interpreter : Interpreter) :
    up.tempPath ∉ (analyze_request fs up interpreter).1.files := by
  cases h : extract_features_from_path up.decode with
  | none =>
      simp [analyze_request, h, List.mem_filter]
  | some m =>
      simp [analyze_request, h, List.mem_filter]
